import Mathlib

/-!
Verification development for the conversational session manager of the
MOSDAC chat frontend (source files: src/hooks/useChat.ts,
src/services/mockData.ts, src/components/Sidebar.tsx,
src/components/ExportModal.tsx, src/types/index.ts).

Modelling conventions:
  * Timestamps are milliseconds since the Unix epoch, as `Nat` (the code
    only ever creates timestamps via `Date.now()` / `new Date()`, which are
    non-negative).
  * The JavaScript builtins `Date.prototype.toISOString` and the
    `new Date(isoString)` parser are embedded below as `encodeISO` /
    `decodeISO` (proleptic Gregorian calendar, UTC, millisecond precision,
    exactly the 24-character `YYYY-MM-DDTHH:mm:ss.sssZ` layout that
    `toISOString` produces for years 0..9999).
  * `JSON.stringify` / `JSON.parse` act as the identity on the plain object
    graphs this program stores (fields holding `undefined` are dropped by
    `JSON.stringify`, which the model represents with `Option` fields whose
    `none` is simply preserved structurally), so persistence is modelled as
    a conversion between `ChatSession` and `StoredSession` object graphs in
    which only the `Date` fields change representation.
  * React state updates (`setSessions (prev => ...)` etc.) are sequential
    functional updates, so a hook callback is embedded as a pure function
    from the hook state to the new hook state (plus any produced value).
-/

namespace Chat

/-! ## Gregorian calendar core (model of the JS `Date` builtin)

A 400-year era has 146097 days.  `doe` ranges over days of an era, with
day 0 being the 1st of March of year 0 of the era (March-based years make
the leap day the last day of a year).  The era is decomposed into 4
centuries (the first three of 36524 days, the last of 36525), a century
into 25 quadrennia (the first 24 of 1461 days; in the first three
centuries the last quadrennium has 1460 days), and a quadrennium into 4
years (three of 365 days, the last of 366 where present). -/

def isoCent (doe : Nat) : Nat := if doe / 36524 ≤ 3 then doe / 36524 else 3

def isoDc (doe : Nat) : Nat := doe - 36524 * isoCent doe

def isoQ (doe : Nat) : Nat := isoDc doe / 1461

def isoDq (doe : Nat) : Nat := isoDc doe - 1461 * isoQ doe

def isoYiq (doe : Nat) : Nat := if isoDq doe / 365 ≤ 3 then isoDq doe / 365 else 3

def isoDiy (doe : Nat) : Nat := isoDq doe - 365 * isoYiq doe

def isoYoe (doe : Nat) : Nat := 100 * isoCent doe + 4 * isoQ doe + isoYiq doe

def isoMp (doe : Nat) : Nat := (5 * isoDiy doe + 2) / 153

def isoDay (doe : Nat) : Nat := isoDiy doe - (153 * isoMp doe + 2) / 5 + 1

def isoMonth (doe : Nat) : Nat := if isoMp doe < 10 then isoMp doe + 3 else isoMp doe - 9

def isoYear0 (doe : Nat) : Nat := if isoMonth doe ≤ 2 then isoYoe doe + 1 else isoYoe doe

/-- Days (in era-shifted units: day 0 is 0000-03-01) of a civil date.
This is the inverse direction used when parsing an ISO string. -/
def daysFromCivilParts (y m d : Nat) : Nat :=
  let y' := if m ≤ 2 then y - 1 else y
  let era := y' / 400
  let yoe := y' % 400
  let c := yoe / 100
  let r := yoe % 100
  let q := r / 4
  let yiq := r % 4
  let mp := if m ≤ 2 then m + 9 else m - 3
  let diy := (153 * mp + 2) / 5 + d - 1
  era * 146097 + 36524 * c + 1461 * q + 365 * yiq + diy

theorem isoCent_facts (doe : Nat) :
    isoCent doe ≤ 3 ∧ 36524 * isoCent doe ≤ doe := by
  unfold isoCent; split <;> omega

theorem isoDc_le (doe : Nat) (h : doe < 146097) : isoDc doe ≤ 36524 := by
  unfold isoDc isoCent; split <;> omega

theorem isoQ_facts (doe : Nat) (h : doe < 146097) :
    isoQ doe ≤ 24 ∧ 1461 * isoQ doe ≤ isoDc doe ∧ isoDq doe ≤ 1460 := by
  have h1 := isoDc_le doe h
  unfold isoDq isoQ
  omega

theorem isoYiq_facts (doe : Nat) :
    isoYiq doe ≤ 3 ∧ 365 * isoYiq doe ≤ isoDq doe := by
  unfold isoYiq; split <;> omega

theorem isoDiy_le (doe : Nat) (h : doe < 146097) : isoDiy doe ≤ 365 := by
  have h1 := (isoQ_facts doe h).2.2
  unfold isoDiy isoYiq
  split <;> omega

theorem isoMp_facts (doe : Nat) (h : doe < 146097) :
    isoMp doe ≤ 11 ∧ (153 * isoMp doe + 2) / 5 ≤ isoDiy doe ∧
      isoDiy doe ≤ (153 * isoMp doe + 2) / 5 + 30 := by
  have h1 := isoDiy_le doe h
  unfold isoMp
  omega

theorem isoMonth_facts (doe : Nat) (h : doe < 146097) :
    1 ≤ isoMonth doe ∧ isoMonth doe ≤ 12 ∧
      (isoMonth doe ≤ 2 ↔ 10 ≤ isoMp doe) := by
  have h1 := isoMp_facts doe h
  unfold isoMonth
  split_ifs <;> omega

theorem isoDay_facts (doe : Nat) (h : doe < 146097) :
    1 ≤ isoDay doe ∧ isoDay doe ≤ 31 := by
  have h1 := isoMp_facts doe h
  have h2 : isoDay doe = isoDiy doe - (153 * isoMp doe + 2) / 5 + 1 := rfl
  omega

theorem isoMpRecon (doe : Nat) (h : doe < 146097) :
    (if isoMonth doe ≤ 2 then isoMonth doe + 9 else isoMonth doe - 3) = isoMp doe := by
  have h1 := isoMp_facts doe h
  unfold isoMonth
  split_ifs <;> omega

theorem isoYear0_facts (doe : Nat) (h : doe < 146097) :
    isoYear0 doe ≤ 400 ∧ (doe ≤ 146036 → isoYear0 doe ≤ 399) := by
  have h1 := isoCent_facts doe
  have h3 := isoQ_facts doe h
  have h4 := isoYiq_facts doe
  have h6 := isoMp_facts doe h
  have h7 := isoMonth_facts doe h
  have hdc : isoDc doe = doe - 36524 * isoCent doe := rfl
  have hdq : isoDq doe = isoDc doe - 1461 * isoQ doe := rfl
  have hdiy : isoDiy doe = isoDq doe - 365 * isoYiq doe := rfl
  have hmp : isoMp doe = (5 * isoDiy doe + 2) / 153 := rfl
  have hyoe : isoYoe doe = 100 * isoCent doe + 4 * isoQ doe + isoYiq doe := rfl
  have hy0 : isoYear0 doe =
      if isoMonth doe ≤ 2 then isoYoe doe + 1 else isoYoe doe := rfl
  split_ifs at hy0 <;> omega

/-- Core inversion: converting a day-of-era back from its civil date
recovers the day number, for any era. -/
theorem doe_roundtrip (doe : Nat) (h : doe < 146097) (era : Nat) :
    daysFromCivilParts (400 * era + isoYear0 doe) (isoMonth doe) (isoDay doe) =
      146097 * era + doe := by
  have h1 := isoCent_facts doe
  have h3 := isoQ_facts doe h
  have h4 := isoYiq_facts doe
  have h5 := isoDiy_le doe h
  have h6 := isoMp_facts doe h
  have h7 := isoMonth_facts doe h
  have hdc : isoDc doe = doe - 36524 * isoCent doe := rfl
  have hdq : isoDq doe = isoDc doe - 1461 * isoQ doe := rfl
  have hdiy : isoDiy doe = isoDq doe - 365 * isoYiq doe := rfl
  have hday : isoDay doe = isoDiy doe - (153 * isoMp doe + 2) / 5 + 1 := rfl
  have hyoe : isoYoe doe = 100 * isoCent doe + 4 * isoQ doe + isoYiq doe := rfl
  have hy0 : isoYear0 doe =
      if isoMonth doe ≤ 2 then isoYoe doe + 1 else isoYoe doe := rfl
  simp only [daysFromCivilParts]
  rw [isoMpRecon doe h]
  split_ifs at hy0 ⊢ with hm
  · have e1 : (400 * era + isoYear0 doe - 1) / 400 = era := by omega
    have e2 : (400 * era + isoYear0 doe - 1) % 400 =
        100 * isoCent doe + 4 * isoQ doe + isoYiq doe := by omega
    rw [e1, e2]
    have e3 : (100 * isoCent doe + 4 * isoQ doe + isoYiq doe) / 100 = isoCent doe := by
      omega
    have e4 : (100 * isoCent doe + 4 * isoQ doe + isoYiq doe) % 100 =
        4 * isoQ doe + isoYiq doe := by omega
    rw [e3, e4]
    have e5 : (4 * isoQ doe + isoYiq doe) / 4 = isoQ doe := by omega
    have e6 : (4 * isoQ doe + isoYiq doe) % 4 = isoYiq doe := by omega
    rw [e5, e6]
    omega
  · have e1 : (400 * era + isoYear0 doe) / 400 = era := by omega
    have e2 : (400 * era + isoYear0 doe) % 400 =
        100 * isoCent doe + 4 * isoQ doe + isoYiq doe := by omega
    rw [e1, e2]
    have e3 : (100 * isoCent doe + 4 * isoQ doe + isoYiq doe) / 100 = isoCent doe := by
      omega
    have e4 : (100 * isoCent doe + 4 * isoQ doe + isoYiq doe) % 100 =
        4 * isoQ doe + isoYiq doe := by omega
    rw [e3, e4]
    have e5 : (4 * isoQ doe + isoYiq doe) / 4 = isoQ doe := by omega
    have e6 : (4 * isoQ doe + isoYiq doe) % 4 = isoYiq doe := by omega
    rw [e5, e6]
    omega

/-! ## ISO-8601 rendering and parsing (model of toISOString / new Date) -/

def msPerDay : Nat := 86400000

/-- Days from 0000-03-01 to 1970-01-01 (the Unix epoch) in the proleptic
Gregorian calendar. -/
def epochDays : Nat := 719468

/-- Timestamps below this bound (the millisecond count of 10000-01-01)
render with a 4-digit year, which is the only regime this model covers
(toISOString switches to a 6-digit expanded year beyond it). -/
def year10000ms : Nat := 253402300800000

def pad2 (n : Nat) : List Char := [Nat.digitChar (n / 10), Nat.digitChar (n % 10)]

def pad3 (n : Nat) : List Char :=
  [Nat.digitChar (n / 100), Nat.digitChar (n / 10 % 10), Nat.digitChar (n % 10)]

def pad4 (n : Nat) : List Char :=
  [Nat.digitChar (n / 1000), Nat.digitChar (n / 100 % 10),
   Nat.digitChar (n / 10 % 10), Nat.digitChar (n % 10)]

/-- Model of `Date.prototype.toISOString` on a millisecond timestamp. -/
def encodeISO (t : Nat) : String :=
  let z := t / msPerDay + epochDays
  let doe := z % 146097
  let y := 400 * (z / 146097) + isoYear0 doe
  let r := t % msPerDay
  ⟨pad4 y ++ '-' :: pad2 (isoMonth doe) ++ '-' :: pad2 (isoDay doe) ++
    'T' :: pad2 (r / 3600000) ++ ':' :: pad2 (r / 60000 % 60) ++
    ':' :: pad2 (r / 1000 % 60) ++ '.' :: pad3 (r % 1000) ++ ['Z']⟩

def digitVal (c : Char) : Nat := c.toNat - 48

/-- Consumes one decimal digit from the front of a character stream. -/
def readDigit : List Char → Option (Nat × List Char)
  | c :: rest => if c.isDigit then some (digitVal c, rest) else none
  | [] => none

/-- Consumes one expected literal character from the front of a stream. -/
def readLit (ch : Char) : List Char → Option (List Char)
  | c :: rest => if c = ch then some rest else none
  | [] => none

def read2 (l : List Char) : Option (Nat × List Char) :=
  match readDigit l with
  | none => none
  | some (a, l1) =>
    match readDigit l1 with
    | none => none
    | some (b, l2) => some (a * 10 + b, l2)

def read3 (l : List Char) : Option (Nat × List Char) :=
  match read2 l with
  | none => none
  | some (a, l1) =>
    match readDigit l1 with
    | none => none
    | some (b, l2) => some (a * 10 + b, l2)

def read4 (l : List Char) : Option (Nat × List Char) :=
  match read2 l with
  | none => none
  | some (a, l1) =>
    match read2 l1 with
    | none => none
    | some (b, l2) => some (a * 100 + b, l2)

/-- Step of the fixed-layout parse: a numeric field followed by one
separator character. -/
def readField (reader : List Char → Option (Nat × List Char)) (sep : Char)
    (l : List Char) : Option (Nat × List Char) :=
  match reader l with
  | none => none
  | some (n, l1) =>
    match readLit sep l1 with
    | none => none
    | some l2 => some (n, l2)

/-- Model of `new Date(s).getTime()` on an ISO-8601 UTC string of the
24-character layout produced by `toISOString`; `none` models an invalid
date (or a pre-epoch instant, which the Nat-millisecond model cannot
represent). -/
def decodeISO (s : String) : Option Nat :=
  match readField read4 '-' s.data with
  | none => none
  | some (y, l) =>
  match readField read2 '-' l with
  | none => none
  | some (mo, l) =>
  match readField read2 'T' l with
  | none => none
  | some (dd, l) =>
  match readField read2 ':' l with
  | none => none
  | some (hh, l) =>
  match readField read2 ':' l with
  | none => none
  | some (mi, l) =>
  match readField read2 '.' l with
  | none => none
  | some (ss, l) =>
  match readField read3 'Z' l with
  | none => none
  | some (ms, l) =>
  match l with
  | [] =>
    if epochDays ≤ daysFromCivilParts y mo dd then
      some ((daysFromCivilParts y mo dd - epochDays) * msPerDay +
        (hh * 3600000 + mi * 60000 + ss * 1000 + ms))
    else none
  | _ => none

theorem digitChar_spec (k : Nat) (h : k < 10) :
    (Nat.digitChar k).isDigit = true ∧ digitVal (Nat.digitChar k) = k := by
  interval_cases k <;> exact ⟨rfl, rfl⟩

theorem encode_year_le (t : Nat) (h : t < year10000ms) :
    400 * ((t / msPerDay + epochDays) / 146097) +
      isoYear0 ((t / msPerDay + epochDays) % 146097) ≤ 9999 := by
  have hz : t / msPerDay + epochDays ≤ 3652364 := by
    unfold msPerDay epochDays
    unfold year10000ms at h
    omega
  have hdoe : (t / msPerDay + epochDays) % 146097 < 146097 :=
    Nat.mod_lt _ (by norm_num)
  have h1 := isoYear0_facts ((t / msPerDay + epochDays) % 146097) hdoe
  omega

theorem readDigit_digitChar (k : Nat) (h : k < 10) (rest : List Char) :
    readDigit (Nat.digitChar k :: rest) = some (k, rest) := by
  obtain ⟨h1, h2⟩ := digitChar_spec k h
  simp [readDigit, h1, h2]

theorem readLit_cons (ch : Char) (rest : List Char) :
    readLit ch (ch :: rest) = some rest := by
  simp [readLit]

theorem read2_pad2 (n : Nat) (h : n ≤ 99) (rest : List Char) :
    read2 (pad2 n ++ rest) = some (n, rest) := by
  have e : n / 10 * 10 + n % 10 = n := by omega
  simp only [pad2, List.cons_append, List.nil_append, read2,
    readDigit_digitChar (n / 10) (by omega), readDigit_digitChar (n % 10) (by omega)]
  rw [e]

theorem read3_pad3 (n : Nat) (h : n ≤ 999) (rest : List Char) :
    read3 (pad3 n ++ rest) = some (n, rest) := by
  have e : (n / 100 * 10 + n / 10 % 10) * 10 + n % 10 = n := by omega
  simp only [pad3, List.cons_append, List.nil_append, read3, read2,
    readDigit_digitChar (n / 100) (by omega),
    readDigit_digitChar (n / 10 % 10) (by omega),
    readDigit_digitChar (n % 10) (by omega)]
  rw [e]

theorem read4_pad4 (n : Nat) (h : n ≤ 9999) (rest : List Char) :
    read4 (pad4 n ++ rest) = some (n, rest) := by
  have e : (n / 1000 * 10 + n / 100 % 10) * 100 + (n / 10 % 10 * 10 + n % 10)
      = n := by omega
  simp only [pad4, List.cons_append, List.nil_append, read4, read2,
    readDigit_digitChar (n / 1000) (by omega),
    readDigit_digitChar (n / 100 % 10) (by omega),
    readDigit_digitChar (n / 10 % 10) (by omega),
    readDigit_digitChar (n % 10) (by omega)]
  rw [e]

/-- Parsing a well-formed rendered timestamp string recovers its fields. -/
theorem decodeISO_explicit (y mo dd hh mi ss ms : Nat)
    (hy : y ≤ 9999) (hmo : mo ≤ 99) (hdd : dd ≤ 99)
    (hhh : hh ≤ 99) (hmi : mi ≤ 99) (hss : ss ≤ 99) (hms : ms ≤ 999)
    (hz : epochDays ≤ daysFromCivilParts y mo dd) :
    decodeISO
      ⟨pad4 y ++ '-' :: pad2 mo ++ '-' :: pad2 dd ++
        'T' :: pad2 hh ++ ':' :: pad2 mi ++ ':' :: pad2 ss ++
        '.' :: pad3 ms ++ ['Z']⟩ =
      some ((daysFromCivilParts y mo dd - epochDays) * msPerDay +
        (hh * 3600000 + mi * 60000 + ss * 1000 + ms)) := by
  simp only [decodeISO, readField, List.cons_append, List.append_assoc,
    read4_pad4 y hy, readLit_cons, read2_pad2 mo hmo, read2_pad2 dd hdd,
    read2_pad2 hh hhh, read2_pad2 mi hmi, read2_pad2 ss hss, read3_pad3 ms hms]
  rw [if_pos hz]

set_option maxRecDepth 8000 in
/-- The ISO round-trip is the identity on timestamps up to year 10000. -/
theorem decodeISO_encodeISO (t : Nat) (h : t < year10000ms) :
    decodeISO (encodeISO t) = some t := by
  have hy := encode_year_le t h
  have hdoe : (t / msPerDay + epochDays) % 146097 < 146097 :=
    Nat.mod_lt _ (by decide)
  have hmo := isoMonth_facts _ hdoe
  have hd := isoDay_facts _ hdoe
  have hr : t % msPerDay < 86400000 := Nat.mod_lt _ (by decide)
  have hround := doe_roundtrip ((t / msPerDay + epochDays) % 146097) hdoe
    ((t / msPerDay + epochDays) / 146097)
  have hzrec : 146097 * ((t / msPerDay + epochDays) / 146097) +
      (t / msPerDay + epochDays) % 146097 = t / msPerDay + epochDays := by omega
  have hmo99 : isoMonth ((t / msPerDay + epochDays) % 146097) ≤ 99 := by omega
  have hdd99 : isoDay ((t / msPerDay + epochDays) % 146097) ≤ 99 := by omega
  have hhh : t % msPerDay / 3600000 ≤ 99 := by omega
  have hmi : t % msPerDay / 60000 % 60 ≤ 99 := by omega
  have hss : t % msPerDay / 1000 % 60 ≤ 99 := by omega
  have hms : t % msPerDay % 1000 ≤ 999 := by omega
  have hz' : epochDays ≤ daysFromCivilParts
      (400 * ((t / msPerDay + epochDays) / 146097) +
        isoYear0 ((t / msPerDay + epochDays) % 146097))
      (isoMonth ((t / msPerDay + epochDays) % 146097))
      (isoDay ((t / msPerDay + epochDays) % 146097)) := by
    rw [hround, hzrec]
    unfold msPerDay epochDays
    omega
  simp only [encodeISO]
  rw [decodeISO_explicit _ _ _ _ _ _ _ hy hmo99 hdd99 hhh hmi hss hms hz']
  simp only [Option.some.injEq]
  rw [hround, hzrec]
  unfold msPerDay epochDays
  omega

example : encodeISO 0 = "1970-01-01T00:00:00.000Z" := by decide
example : encodeISO 1705276800000 = "2024-01-15T00:00:00.000Z" := by decide
example : encodeISO 951867722123 = "2000-02-29T23:42:02.123Z" := by decide
example : encodeISO 253402300799999 = "9999-12-31T23:59:59.999Z" := by decide

/-! ## Data model (src/types/index.ts)

Timestamps (`Date` values) are milliseconds since the epoch as `Nat`.
Optional TypeScript fields become `Option` fields; a field holding
`undefined` and an absent field are identified (JSON serialization drops
both). The `Entity` field named `end` in TypeScript is called `stop` here
because `end` is a Lean keyword. -/

structure Source where
  url : String
  title : String
  content : String
  relevance : ℚ
deriving DecidableEq

structure Entity where
  text : String
  label : String
  confidence : ℚ
  start : Option Nat := none
  stop : Option Nat := none
deriving DecidableEq

inductive Sender where
  | user
  | bot
deriving DecidableEq

structure Message where
  id : String
  text : String
  sender : Sender
  timestamp : Nat
  sources : Option (List Source) := none
  entities : Option (List Entity) := none
  confidence : Option ℚ := none
deriving DecidableEq

structure ChatSession where
  id : String
  title : String
  messages : List Message
  createdAt : Nat
  updatedAt : Nat
deriving DecidableEq

/-- Success payload of the primary remote call (QueryResponse in
src/types/index.ts). -/
structure QueryResponse where
  answer : String
  sources : List Source
  entities : List Entity
  confidence : ℚ
  sessionId : String
deriving DecidableEq

/-! ## Decimal literals

Rationals produced by Lean's scientific-literal elaboration are opaque to
kernel reduction, so every decimal constant of the source is given as an
explicit reduced fraction; the examples after each definition certify
that it equals the decimal literal written in the source. -/

def q095 : ℚ := ⟨19, 20, by decide, by decide⟩
def q087 : ℚ := ⟨87, 100, by decide, by decide⟩
def q099 : ℚ := ⟨99, 100, by decide, by decide⟩
def q085 : ℚ := ⟨17, 20, by decide, by decide⟩
def q092 : ℚ := ⟨23, 25, by decide, by decide⟩
def q088 : ℚ := ⟨22, 25, by decide, by decide⟩
def q075 : ℚ := ⟨3, 4, by decide, by decide⟩
def q010 : ℚ := ⟨1, 10, by decide, by decide⟩

example : q095 = 0.95 := by
  unfold q095; rw [Rat.mk'_eq_divInt, Rat.divInt_eq_div]; norm_num
example : q087 = 0.87 := by
  unfold q087; rw [Rat.mk'_eq_divInt, Rat.divInt_eq_div]; norm_num
example : q099 = 0.99 := by
  unfold q099; rw [Rat.mk'_eq_divInt, Rat.divInt_eq_div]; norm_num
example : q085 = 0.85 := by
  unfold q085; rw [Rat.mk'_eq_divInt, Rat.divInt_eq_div]; norm_num
example : q092 = 0.92 := by
  unfold q092; rw [Rat.mk'_eq_divInt, Rat.divInt_eq_div]; norm_num
example : q088 = 0.88 := by
  unfold q088; rw [Rat.mk'_eq_divInt, Rat.divInt_eq_div]; norm_num
example : q075 = 0.75 := by
  unfold q075; rw [Rat.mk'_eq_divInt, Rat.divInt_eq_div]; norm_num
example : q010 = 0.1 := by
  unfold q010; rw [Rat.mk'_eq_divInt, Rat.divInt_eq_div]; norm_num

/-! ## Canned fallback data (src/services/mockData.ts) -/

def mockSources : List Source :=
  [{ url := "https://mosdac.gov.in/satellite-data",
     title := "MOSDAC Satellite Data Archive",
     content := "INSAT-3D provides meteorological and oceanographic data for weather forecasting and climate monitoring.",
     relevance := q095 },
   { url := "https://mosdac.gov.in/weather-services",
     title := "Weather Services - MOSDAC",
     content := "Real-time weather data and forecasts using satellite imagery and ground-based observations.",
     relevance := q087 }]

def mockEntities : List Entity :=
  [{ text := "INSAT-3D", label := "SATELLITE", confidence := q099 },
   { text := "weather forecasting", label := "SERVICE", confidence := q085 },
   { text := "MOSDAC", label := "ORGANIZATION", confidence := 0.95 }]

/-- Shape of a fallback reply as consumed downstream (the keyword-table
entries additionally carry their `query` keyword, see `MockEntry`; the
generic reply object has exactly these four fields). -/
structure MockReply where
  response : String
  sources : List Source
  entities : List Entity
  confidence : ℚ
deriving DecidableEq

/-- One entry of the keyword-matched table `mockBotResponses`. -/
structure MockEntry where
  query : String
  response : String
  sources : List Source
  entities : List Entity
  confidence : ℚ
deriving DecidableEq

def MockEntry.toReply (e : MockEntry) : MockReply :=
  ⟨e.response, e.sources, e.entities, e.confidence⟩

def mockBotResponses : List MockEntry :=
  [{ query := "insat",
     response := "INSAT-3D is a geostationary meteorological satellite that provides:\n\n• **Weather Monitoring**: Real-time atmospheric conditions, cloud imagery, and precipitation data\n• **Disaster Management**: Early warning systems for cyclones, floods, and severe weather events  \n• **Climate Research**: Long-term climate data for research and analysis\n• **Ocean Monitoring**: Sea surface temperature and oceanographic parameters\n\nThe satellite operates from 82°E longitude and covers the entire Indian subcontinent and surrounding regions.",
     sources := mockSources,
     entities := mockEntities,
     confidence := q092 },
   { query := "weather",
     response := "MOSDAC provides comprehensive weather services including:\n\n• **Real-time Data**: Current weather conditions from satellite and ground observations\n• **Forecasting**: Short-term (1-3 days) and medium-term (3-7 days) weather predictions\n• **Severe Weather Alerts**: Warnings for cyclones, thunderstorms, and extreme weather\n• **Climate Monitoring**: Long-term climate trends and seasonal patterns\n\nOur data is used by meteorological departments, researchers, and disaster management agencies across India.",
     sources := mockSources.take 1,
     entities := (mockEntities.drop 1).take 1,
     confidence := q088 }]

/-- The generic fallback reply (the default branch of getMockResponse):
note it carries `confidence = 0.75` and an empty entity list. -/
def defaultMockReply (query : String) : MockReply :=
  { response := "I understand you\x27re asking about \"" ++ query ++ "\". Based on MOSDAC\x27s data archive, I can help you with:\n\n• **Satellite Data**: Information about INSAT, SCATSAT, and other satellite missions\n• **Weather Services**: Current conditions, forecasts, and climate data\n• **Ocean Data**: Sea surface temperature, wave height, and marine parameters\n• **Research Tools**: Data access, APIs, and analysis capabilities\n\nCould you please be more specific about what aspect you\x27d like to know more about?",
    sources := mockSources,
    entities := [],
    confidence := q075 }

/-- Model of JavaScript `toLowerCase` (the core `String.toLower` is not
kernel-reducible, so the conversion is done on the character list). -/
def jsToLower (s : String) : String := ⟨s.data.map Char.toLower⟩

/-- Whitespace as stripped by the JavaScript `trim` (restricted to the
ASCII whitespace characters, the only ones this program produces). -/
def trimList (l : List Char) : List Char :=
  ((l.dropWhile Char.isWhitespace).reverse.dropWhile Char.isWhitespace).reverse

/-- Model of JavaScript `trim`. -/
def jsTrim (s : String) : String := ⟨trimList s.data⟩

/-- Model of JavaScript `s.slice(0, n)` (the first `n` characters). -/
def jsTake (n : Nat) (s : String) : String := ⟨s.data.take n⟩

/-- Model of the JavaScript substring test `s.includes(sub)` on the
underlying character list. -/
def jsIncludesAux (needle : List Char) : List Char → Bool
  | [] => needle.isEmpty
  | c :: rest => needle.isPrefixOf (c :: rest) || jsIncludesAux needle rest

def jsIncludes (s sub : String) : Bool := jsIncludesAux sub.data s.data

/-- getMockResponse (src/services/mockData.ts): first table entry whose
keyword occurs in the lowercased query, else the generic reply. The
for-loop over the table returning the first hit is `List.find?`. -/
def getMockResponse (query : String) : MockReply :=
  match mockBotResponses.find? (fun mock => jsIncludes (jsToLower query) mock.query) with
  | some mock => mock.toReply
  | none => defaultMockReply query

/-! ## Response resolution (inner try/catch of sendMessage, useChat.ts)

The primary call `apiService.sendMessage` is external; its outcome enters
the model as an `Except` value. On any failure the catch arm waits a
random 1-3 s delay (latency does not change the produced value, so it is
not part of the value-level model) and uses `getMockResponse`. -/

inductive ResolverOutput where
  | primary (resp : QueryResponse)
  | mock (reply : MockReply)
deriving DecidableEq

def resolveResponse (primaryResult : Except String QueryResponse)
    (query : String) : ResolverOutput :=
  match primaryResult with
  | Except.ok resp => ResolverOutput.primary resp
  | Except.error _ => ResolverOutput.mock (getMockResponse query)

/-- The normalized answer text of a resolver outcome: the code reads
`response.answer || response.response`, and each payload shape carries
exactly one of the two fields. -/
def ResolverOutput.answerText : ResolverOutput → String
  | ResolverOutput.primary resp => resp.answer
  | ResolverOutput.mock reply => reply.response

/-! ## Session repository state and operations (src/hooks/useChat.ts)

A hook callback is embedded as a pure function on the hook state
`(sessions, currentSessionId, isLoading)`; `Date.now()` / `new Date()`
values are passed in as explicit `now` arguments. -/

structure ChatState where
  sessions : List ChatSession
  currentSessionId : Option String
  isLoading : Bool
deriving DecidableEq

def initialChatState : ChatState := ⟨[], none, false⟩

/-- createNewSession (useChat.ts lines 41-53): fresh id from Date.now,
title "New Chat", empty messages, inserted at the head, made current. -/
def createNewSession (st : ChatState) (now : Nat) : ChatSession × ChatState :=
  let newSession : ChatSession :=
    { id := toString now, title := "New Chat", messages := [],
      createdAt := now, updatedAt := now }
  (newSession,
   { st with sessions := newSession :: st.sessions,
             currentSessionId := some newSession.id })

/-- selectSession (useChat.ts lines 55-57). -/
def selectSession (st : ChatState) (sessionId : String) : ChatState :=
  { st with currentSessionId := some sessionId }

/-- deleteSession (useChat.ts lines 59-64): drops the session and unsets
the current pointer when it pointed at the deleted id. -/
def deleteSession (st : ChatState) (sessionId : String) : ChatState :=
  { st with
    sessions := st.sessions.filter (fun s => s.id != sessionId),
    currentSessionId :=
      if st.currentSessionId = some sessionId then none
      else st.currentSessionId }

/-- renameSession (useChat.ts lines 66-72): unconditionally replaces the
title of the matching session and bumps updatedAt — there is no emptiness
or trimming check at this level. -/
def renameSession (st : ChatState) (sessionId newTitle : String) (now : Nat) :
    ChatState :=
  { st with
    sessions := st.sessions.map (fun s =>
      if s.id = sessionId
      then { s with title := newTitle, updatedAt := now }
      else s) }

/-- handleFinishEdit (src/components/Sidebar.tsx lines 30-36): the UI
edit-commit handler; only a title that is non-empty after trimming is
forwarded (trimmed) to renameSession. -/
def handleFinishEdit (st : ChatState) (sessionId editingTitle : String)
    (now : Nat) : ChatState :=
  if jsTrim editingTitle ≠ "" then
    renameSession st sessionId (jsTrim editingTitle) now
  else st

/-! ## sendMessage (useChat.ts lines 74-165) -/

/-- How one send turn settles: primary success, primary failure recovered
by the local mock, or a second-order failure of the whole try block
(the outer catch producing the apology message). -/
inductive SendOutcome where
  | primary (resp : QueryResponse)
  | fallback
  | secondOrder
deriving DecidableEq

def apologyText : String :=
  "Sorry, I encountered an error processing your request. Please check your connection and try again."

/-- The optimistically appended user message (id and timestamp both from
the same Date.now tick). -/
def userMessage (text : String) (now : Nat) : Message :=
  { id := toString now, text := text, sender := Sender.user, timestamp := now }

/-- The assistant message appended when the turn settles; text is
`response.answer || response.response`, and the outer catch produces the
fixed apology with confidence 0.1. -/
def botMessage (outcome : SendOutcome) (text : String) (tBot : Nat) : Message :=
  match outcome with
  | SendOutcome.primary resp =>
      { id := toString (tBot + 1), text := resp.answer, sender := Sender.bot,
        timestamp := tBot, sources := some resp.sources,
        entities := some resp.entities, confidence := some resp.confidence }
  | SendOutcome.fallback =>
      let reply := getMockResponse text
      { id := toString (tBot + 1), text := reply.response, sender := Sender.bot,
        timestamp := tBot, sources := some reply.sources,
        entities := some reply.entities, confidence := some reply.confidence }
  | SendOutcome.secondOrder =>
      { id := toString (tBot + 1), text := apologyText, sender := Sender.bot,
        timestamp := tBot, confidence := some q010 }

/-- The setSessions functional update that appends the user message
(useChat.ts lines 90-99), including the first-message auto-title. -/
def appendUserMessage (sessions : List ChatSession) (sid : String)
    (msg : Message) (now : Nat) (text : String) : List ChatSession :=
  sessions.map (fun session =>
    if session.id = sid then
      { session with
        messages := session.messages ++ [msg],
        updatedAt := now,
        title := if session.messages.length = 0 then jsTake 50 text
                 else session.title }
    else session)

/-- The setSessions functional update that appends the assistant message
(useChat.ts lines 132-140 and 153-161). -/
def appendBotMessage (sessions : List ChatSession) (sid : String)
    (msg : Message) (now : Nat) : List ChatSession :=
  sessions.map (fun session =>
    if session.id = sid then
      { session with messages := session.messages ++ [msg], updatedAt := now }
    else session)

/-- sendMessage as a state transition. The session id is captured at the
start (creating a session first when the current pointer is unset), the
user message is appended optimistically, and on settlement the assistant
message is appended to the captured id. `isLoading` is set during the
turn and reset in the finally block; the function returns the settled
state. -/
def sendMessage (st : ChatState) (text : String) (tNew tUser tBot : Nat)
    (outcome : SendOutcome) : ChatState :=
  let captured :=
    match st.currentSessionId with
    | some sessionId => (sessionId, st)
    | none =>
      let created := createNewSession st tNew
      (created.1.id, created.2)
  let sid := captured.1
  let st1 := captured.2
  let st2 := { st1 with
    sessions := appendUserMessage st1.sessions sid (userMessage text tUser) tUser text,
    isLoading := true }
  { st2 with
    sessions := appendBotMessage st2.sessions sid (botMessage outcome text tBot) tBot,
    isLoading := false }

/-! ## Session-lifecycle operation sequences (for the repository invariant) -/

inductive SessionOp where
  | create (now : Nat)
  | delete (sessionId : String)
  | rename (sessionId newTitle : String) (now : Nat)
deriving DecidableEq

def applySessionOp (st : ChatState) (op : SessionOp) : ChatState :=
  match op with
  | SessionOp.create now => (createNewSession st now).2
  | SessionOp.delete sid => deleteSession st sid
  | SessionOp.rename sid title now => renameSession st sid title now

def runSessionOps (ops : List SessionOp) : ChatState :=
  ops.foldl applySessionOp initialChatState

/-! ## Persistence (localStorage mirror, useChat.ts lines 14-39)

The stored blob is `JSON.stringify` of the session array; since JSON
stringify/parse is the identity on these plain object graphs, the blob is
modelled as the object graph itself (`StoredSession`), in which exactly
the `Date`-valued fields have become ISO strings. -/

structure StoredMessage where
  id : String
  text : String
  sender : Sender
  timestamp : String
  sources : Option (List Source) := none
  entities : Option (List Entity) := none
  confidence : Option ℚ := none
deriving DecidableEq

structure StoredSession where
  id : String
  title : String
  messages : List StoredMessage
  createdAt : String
  updatedAt : String
deriving DecidableEq

def serializeMessage (m : Message) : StoredMessage :=
  { id := m.id, text := m.text, sender := m.sender,
    timestamp := encodeISO m.timestamp, sources := m.sources,
    entities := m.entities, confidence := m.confidence }

def serializeSession (s : ChatSession) : StoredSession :=
  { id := s.id, title := s.title,
    messages := s.messages.map serializeMessage,
    createdAt := encodeISO s.createdAt, updatedAt := encodeISO s.updatedAt }

def serializeSessions (sessions : List ChatSession) : List StoredSession :=
  sessions.map serializeSession

/-- Option-valued traversal (a parse failure of one element fails the
whole load, matching the observed all-or-nothing load behavior). -/
def loadAll {α β : Type} (g : α → Option β) : List α → Option (List β)
  | [] => some []
  | x :: xs =>
    match g x with
    | none => none
    | some y =>
      match loadAll g xs with
      | none => none
      | some ys => some (y :: ys)

/-- Reading one message back: `new Date(m.timestamp)` on the stored ISO
string. -/
def loadMessage (m : StoredMessage) : Option Message :=
  (decodeISO m.timestamp).map (fun t =>
    { id := m.id, text := m.text, sender := m.sender, timestamp := t,
      sources := m.sources, entities := m.entities,
      confidence := m.confidence })

def loadSession (s : StoredSession) : Option ChatSession :=
  (decodeISO s.createdAt).bind (fun c =>
    (decodeISO s.updatedAt).bind (fun u =>
      (loadAll loadMessage s.messages).map (fun msgs =>
        { id := s.id, title := s.title, messages := msgs,
          createdAt := c, updatedAt := u })))

def loadSessions (l : List StoredSession) : Option (List ChatSession) :=
  loadAll loadSession l

/-- The persistence effect (useChat.ts lines 35-39): the save effect runs
after every sessions change, but writes the serialized collection only
when `sessions.length > 0`; otherwise the previously stored blob remains
untouched. -/
def persistEffect (sessions : List ChatSession)
    (store : Option (List StoredSession)) : Option (List StoredSession) :=
  if sessions.length > 0 then some (serializeSessions sessions) else store

/-- One mutation step together with its persistence effect. -/
def mutateAndPersist (st : ChatState) (op : SessionOp)
    (store : Option (List StoredSession)) :
    ChatState × Option (List StoredSession) :=
  let st' := applySessionOp st op
  (st', persistEffect st'.sessions store)

/-! ## Export engine (exportData, useChat.ts lines 167-296) -/

structure ExportOptions where
  format : String
  includeMessages : Bool
  includeSources : Bool
  includeEntities : Bool
  includeMetadata : Bool
  dateRange : String
  selectedSessions : List String
deriving DecidableEq

structure ExportResult where
  filename : String
  mimeType : String
  content : String
deriving DecidableEq

/-- The three inclusion filters (useChat.ts lines 179-204), in source
order: messages emptied first, then sources stripped, then entities
stripped; the strips are independent of each other. -/
def stripForExport (opts : ExportOptions) (sessions : List ChatSession) :
    List ChatSession :=
  let s1 := if opts.includeMessages then sessions
            else sessions.map (fun s => { s with messages := [] })
  let s2 := if opts.includeSources then s1
            else s1.map (fun s =>
              { s with messages := s.messages.map (fun m =>
                  { m with sources := none }) })
  if opts.includeEntities then s2
  else s2.map (fun s =>
    { s with messages := s.messages.map (fun m => { m with entities := none }) })

/-! ### String rendering helpers (kernel-computable stand-ins for the
JavaScript builtins used by the renderers) -/

def joinSep (sep : String) : List String → String
  | [] => ""
  | [x] => x
  | x :: xs => x ++ sep ++ joinSep sep xs

def natStrAux : Nat → Nat → List Char
  | 0, _ => []
  | fuel+1, n =>
    if n < 10 then [Nat.digitChar n]
    else natStrAux fuel (n / 10) ++ [Nat.digitChar (n % 10)]

/-- Decimal rendering of a natural number (model of JS integer
printing). -/
def natStr (n : Nat) : String := ⟨natStrAux (n + 1) n⟩

def intStr (i : Int) : String :=
  if i < 0 then "-" ++ natStr i.natAbs else natStr i.natAbs

/-- Smallest power of ten the denominator divides (exists for every
number this program stores, which are all exact short decimals). -/
def decExp (den : Nat) : Option Nat :=
  (List.range 21).find? (fun k => 10 ^ k % den == 0)

/-- Model of JavaScript number printing, exact on finite decimals (the
only values occurring in this program); a non-decimal rational falls back
to a fraction rendering. -/
def jsNum (q : ℚ) : String :=
  match decExp q.den with
  | some k =>
    if k = 0 then intStr q.num
    else
      let scaled := q.num.natAbs * (10 ^ k / q.den)
      (if q.num < 0 then "-" else "") ++ natStr (scaled / 10 ^ k) ++ "." ++
        ⟨List.replicate (k - (natStrAux (scaled % 10 ^ k + 1) (scaled % 10 ^ k)).length) '0' ++
          natStrAux (scaled % 10 ^ k + 1) (scaled % 10 ^ k)⟩
  | none => intStr q.num ++ "/" ++ natStr q.den

def senderStr : Sender → String
  | Sender.user => "user"
  | Sender.bot => "bot"

def boolStr (b : Bool) : String := if b then "true" else "false"

def sp (n : Nat) : String := ⟨List.replicate n ' '⟩

/-! ### JSON rendering (model of JSON.stringify(x, null, 2), with Date
fields rendered through toISOString and undefined-valued fields
omitted) -/

def jsonEscapeChar (c : Char) : List Char :=
  if c = '"' then ['\\', '"']
  else if c = '\\' then ['\\', '\\']
  else if c = '\n' then ['\\', 'n']
  else if c = '\r' then ['\\', 'r']
  else if c = '\t' then ['\\', 't']
  else if c.toNat = 8 then ['\\', 'b']
  else if c.toNat = 12 then ['\\', 'f']
  else if c.toNat < 32 then
    ['\\', 'u', '0', '0', Nat.digitChar (c.toNat / 16), Nat.digitChar (c.toNat % 16)]
  else [c]

def jsonStr (s : String) : String := ⟨'"' :: s.data.flatMap jsonEscapeChar ++ ['"']⟩

/-- Pretty-printed JSON object at indentation `ind`, fields in insertion
order. -/
def jsonObj (ind : Nat) (fields : List (String × String)) : String :=
  match fields with
  | [] => "\x7b\x7d"
  | _ =>
    "\x7b\n" ++
      joinSep ",\n" (fields.map (fun f => sp (ind + 2) ++ jsonStr f.1 ++ ": " ++ f.2)) ++
      "\n" ++ sp ind ++ "\x7d"

/-- Pretty-printed JSON array at indentation `ind` (empty arrays render
inline as in JSON.stringify). -/
def jsonArr (ind : Nat) (items : List String) : String :=
  match items with
  | [] => "[]"
  | _ =>
    "[\n" ++ joinSep ",\n" (items.map (fun it => sp (ind + 2) ++ it)) ++
      "\n" ++ sp ind ++ "]"

def jsonSource (ind : Nat) (s : Source) : String :=
  jsonObj ind
    [("url", jsonStr s.url), ("title", jsonStr s.title),
     ("content", jsonStr s.content), ("relevance", jsNum s.relevance)]

def jsonEntity (ind : Nat) (e : Entity) : String :=
  jsonObj ind
    ([("text", jsonStr e.text), ("label", jsonStr e.label),
      ("confidence", jsNum e.confidence)] ++
     (match e.start with
      | some v => [("start", natStr v)]
      | none => []) ++
     (match e.stop with
      | some v => [("end", natStr v)]
      | none => []))

def jsonMessage (ind : Nat) (m : Message) : String :=
  jsonObj ind
    ([("id", jsonStr m.id), ("text", jsonStr m.text),
      ("sender", jsonStr (senderStr m.sender)),
      ("timestamp", jsonStr (encodeISO m.timestamp))] ++
     (match m.sources with
      | some srcs => [("sources", jsonArr (ind + 2) (srcs.map (jsonSource (ind + 4))))]
      | none => []) ++
     (match m.entities with
      | some ents => [("entities", jsonArr (ind + 2) (ents.map (jsonEntity (ind + 4))))]
      | none => []) ++
     (match m.confidence with
      | some c => [("confidence", jsNum c)]
      | none => []))

def jsonSession (ind : Nat) (s : ChatSession) : String :=
  jsonObj ind
    [("id", jsonStr s.id), ("title", jsonStr s.title),
     ("messages", jsonArr (ind + 2) (s.messages.map (jsonMessage (ind + 4)))),
     ("createdAt", jsonStr (encodeISO s.createdAt)),
     ("updatedAt", jsonStr (encodeISO s.updatedAt))]

def jsonOptions (ind : Nat) (o : ExportOptions) : String :=
  jsonObj ind
    [("format", jsonStr o.format),
     ("includeMessages", boolStr o.includeMessages),
     ("includeSources", boolStr o.includeSources),
     ("includeEntities", boolStr o.includeEntities),
     ("includeMetadata", boolStr o.includeMetadata),
     ("dateRange", jsonStr o.dateRange),
     ("selectedSessions", jsonArr (ind + 2) (o.selectedSessions.map jsonStr))]

/-- The pretty-printed dump of the export payload
`\x7b exportedAt, options, sessions \x7d` (json and default branches). -/
def jsonExportContent (exportedAt : String) (opts : ExportOptions)
    (sessions : List ChatSession) : String :=
  jsonObj 0
    [("exportedAt", jsonStr exportedAt),
     ("options", jsonOptions 2 opts),
     ("sessions", jsonArr 2 (sessions.map (jsonSession 4)))]

/-! ### CSV rendering (useChat.ts lines 219-239) -/

/-- Quote-escaping of the Text field: embedded quotes are doubled (the
Title field is quoted but NOT escaped in the source). -/
def csvEscape (s : String) : String :=
  ⟨s.data.flatMap (fun c => if c = '"' then ['"', '"'] else [c])⟩

/-- Confidence column: `message.confidence || ''` (so an undefined — and
also a zero — confidence renders as the empty string). -/
def confStr : Option ℚ → String
  | some q => if q = 0 then "" else jsNum q
  | none => ""

def csvRow (session : ChatSession) (message : Message) : String :=
  joinSep ","
    [session.id, "\"" ++ session.title ++ "\"", message.id,
     senderStr message.sender, "\"" ++ csvEscape message.text ++ "\"",
     encodeISO message.timestamp, confStr message.confidence]

/-- Header row followed by one row per message of each selected session,
in session-then-message order; built from the UNstripped selected
sessions (the CSV branch reads `selectedSessions`, not the filtered
export sessions). -/
def csvRows (selected : List ChatSession) : List String :=
  "Session ID,Title,Message ID,Sender,Text,Timestamp,Confidence" ::
    selected.flatMap (fun session => session.messages.map (csvRow session))

def csvContent (selected : List ChatSession) : String :=
  joinSep "\n" (csvRows selected)

/-! ### HTML rendering (useChat.ts lines 241-277)

`toLocaleString` is locale- and timezone-dependent; it is modelled by the
ISO rendering (no claim depends on the HTML body text). -/

def jsLocaleString (t : Nat) : String := encodeISO t

def htmlMessage (m : Message) : String :=
  "\n                <div class=\"message " ++ senderStr m.sender ++ "\">\n                    <strong>" ++
    (if m.sender = Sender.user then "You" else "MOSDAC AI") ++
    ":</strong>\n                    <p>" ++ m.text ++
    "</p>\n                    <div class=\"metadata\">" ++ jsLocaleString m.timestamp ++
    "</div>\n                </div>\n            "

def htmlSession (s : ChatSession) : String :=
  "\n        <div class=\"session\">\n            <h2>" ++ s.title ++
    "</h2>\n            <p class=\"metadata\">Created: " ++ jsLocaleString s.createdAt ++
    "</p>\n            " ++ joinSep "" (s.messages.map htmlMessage) ++
    "\n        </div>\n    "

def htmlContent (now : Nat) (selected : List ChatSession) : String :=
  "\n<!DOCTYPE html>\n<html>\n<head>\n    <title>MOSDAC Chat Export</title>\n    <style>\n        body \x7b font-family: Arial, sans-serif; margin: 20px; \x7d\n        .session \x7b margin-bottom: 30px; border: 1px solid #ddd; padding: 15px; \x7d\n        .message \x7b margin: 10px 0; padding: 10px; border-radius: 5px; \x7d\n        .user \x7b background: #e3f2fd; \x7d\n        .bot \x7b background: #f5f5f5; \x7d\n        .metadata \x7b font-size: 0.8em; color: #666; \x7d\n    </style>\n</head>\n<body>\n    <h1>MOSDAC Chat Export</h1>\n    <p>Exported on: " ++
    jsLocaleString now ++ "</p>\n    " ++
    joinSep "" (selected.map htmlSession) ++ "\n</body>\n</html>"

/-- The date half of the ISO timestamp: `toISOString().split('T')[0]`. -/
def isoDatePart (t : Nat) : String :=
  ⟨(encodeISO t).data.takeWhile (fun c => c != 'T')⟩

/-- exportData as a state reader: it is a hook callback, so it is a
function of the hook state, and since it calls no state setter the state
passes through untouched; the produced download is the filename, mime
type and content of the generated blob. The single `now` argument feeds
both `new Date()` calls of the source (payload timestamp and filename
date). -/
def exportData (st : ChatState) (opts : ExportOptions) (now : Nat) :
    ChatState × ExportResult :=
  let selectedSessions := st.sessions.filter
    (fun s => opts.selectedSessions.contains s.id)
  let exportSessions := stripForExport opts selectedSessions
  let exportedAt := encodeISO now
  let base := "mosdac-export-" ++ isoDatePart now
  if opts.format = "json" then
    (st, ⟨base ++ ".json", "application/json",
          jsonExportContent exportedAt opts exportSessions⟩)
  else if opts.format = "csv" then
    (st, ⟨base ++ ".csv", "text/csv", csvContent selectedSessions⟩)
  else if opts.format = "html" then
    (st, ⟨base ++ ".html", "text/html", htmlContent now selectedSessions⟩)
  else
    (st, ⟨base ++ ".json", "application/json",
          jsonExportContent exportedAt opts exportSessions⟩)

/-- Sessions whose visible CSV text fields contain no newline character
(ids, title, message ids and texts); rendered timestamps and confidences
are newline-free by construction. -/
abbrev rowSafe (s : ChatSession) : Prop :=
  '\n' ∉ s.id.data ∧ '\n' ∉ s.title.data ∧
    ∀ m ∈ s.messages, '\n' ∉ m.id.data ∧ '\n' ∉ m.text.data

/-! ## Claim theorems -/

/-- Claim C2: for every query, resolution never propagates the primary
remote call's failure: the resolver is a total function into response
values, on any primary failure it settles with the deterministic local
fallback, and the normalized answer text of that fallback is the mock
reply's response field (the `answer`-vs-`response` naming difference is
absorbed by the normalization). -/
theorem resolveResponse_never_propagates (e : String) (q : String) :
    resolveResponse (Except.error e) q =
      ResolverOutput.mock (getMockResponse q) ∧
    (∀ resp, resolveResponse (Except.ok resp) q =
      ResolverOutput.primary resp) ∧
    (resolveResponse (Except.error e) q).answerText =
      (getMockResponse q).response :=
  ⟨rfl, fun _ => rfl, rfl⟩

/-- Claim C3: the fallback generator returns the first table entry whose
keyword occurs in the lowercased query; with no keyword hit it returns the
generic reply with confidence 0.75 and no entities; and on the query
"What is INSAT-3D?" it returns the INSAT entry with confidence 0.92. -/
theorem getMockResponse_keyword_table :
    (∀ q entry,
      mockBotResponses.find? (fun mock => jsIncludes (jsToLower q) mock.query) =
          some entry →
        getMockResponse q = entry.toReply) ∧
    (∀ q, (∀ entry ∈ mockBotResponses,
        jsIncludes (jsToLower q) entry.query = false) →
      getMockResponse q = defaultMockReply q ∧
      (getMockResponse q).confidence = q075 ∧
      (getMockResponse q).entities = []) ∧
    (∃ entry,
      mockBotResponses.find?
          (fun mock => jsIncludes (jsToLower "What is INSAT-3D?") mock.query) =
        some entry ∧
      entry.query = "insat" ∧
      entry.confidence = q092 ∧
      getMockResponse "What is INSAT-3D?" = entry.toReply ∧
      (getMockResponse "What is INSAT-3D?").confidence = q092) := by
  refine ⟨?_, ?_, ?_⟩
  · intro q entry he
    unfold getMockResponse
    rw [he]
  · intro q hnone
    have hfind : mockBotResponses.find?
        (fun mock => jsIncludes (jsToLower q) mock.query) = none :=
      List.find?_eq_none.mpr (fun e he => by simp [hnone e he])
    unfold getMockResponse
    rw [hfind]
    exact ⟨rfl, rfl, rfl⟩
  · exact ⟨_, rfl, rfl, by decide, rfl, by decide⟩

theorem getMockResponse_keyword_table_witness :
    getMockResponse "zzz" = defaultMockReply "zzz" ∧
    (getMockResponse "zzz").confidence = q075 ∧
    (getMockResponse "zzz").entities = [] :=
  getMockResponse_keyword_table.2.1 "zzz" (by decide)

/-- One step of the session lifecycle preserves validity of the
current-session pointer. -/
theorem currentValid_step (st : ChatState) (op : SessionOp)
    (h : ∀ sid, st.currentSessionId = some sid →
      ∃ s ∈ st.sessions, s.id = sid) :
    ∀ sid, (applySessionOp st op).currentSessionId = some sid →
      ∃ s ∈ (applySessionOp st op).sessions, s.id = sid := by
  intro sid hsid
  cases op with
  | create now =>
    simp only [applySessionOp, createNewSession] at hsid ⊢
    refine ⟨_, List.mem_cons_self _ _, ?_⟩
    exact Option.some.inj hsid
  | delete dsid =>
    simp only [applySessionOp, deleteSession] at hsid ⊢
    by_cases hcur : st.currentSessionId = some dsid
    · rw [if_pos hcur] at hsid
      cases hsid
    · rw [if_neg hcur] at hsid
      obtain ⟨s, hmem, hid⟩ := h sid hsid
      refine ⟨s, List.mem_filter.mpr ⟨hmem, ?_⟩, hid⟩
      have hne : sid ≠ dsid := by
        intro hcontra
        exact hcur (by rw [← hcontra]; exact hsid)
      simp [bne_iff_ne, hid, hne]
  | rename rsid title now =>
    simp only [applySessionOp, renameSession] at hsid ⊢
    obtain ⟨s, hmem, hid⟩ := h sid hsid
    refine ⟨_, List.mem_map_of_mem _ hmem, ?_⟩
    by_cases hr : s.id = rsid
    · rw [if_pos hr]
      exact hid
    · rw [if_neg hr]
      exact hid

theorem currentValid_run (ops : List SessionOp) :
    ∀ (st : ChatState),
      (∀ sid, st.currentSessionId = some sid →
        ∃ s ∈ st.sessions, s.id = sid) →
      ∀ sid, (ops.foldl applySessionOp st).currentSessionId = some sid →
        ∃ s ∈ (ops.foldl applySessionOp st).sessions, s.id = sid := by
  induction ops with
  | nil => intro st h; exact h
  | cons op rest ih =>
    intro st h
    exact ih _ (currentValid_step st op h)

/-- Claim C4: over every finite sequence of createSession, deleteSession
and renameSession operations from the empty repository, the
current-session pointer is unset or names a session present in the
collection (deleteSession of the current session unsets the pointer, so
validity is never lost). -/
theorem sessionOps_current_pointer_valid (ops : List SessionOp)
    (sid : String)
    (h : (runSessionOps ops).currentSessionId = some sid) :
    ∃ s ∈ (runSessionOps ops).sessions, s.id = sid :=
  currentValid_run ops initialChatState
    (fun _ h' => Option.noConfusion h') sid h

theorem sessionOps_current_pointer_valid_witness :
    ∃ s ∈ (runSessionOps
      [SessionOp.create 9, SessionOp.create 7,
       SessionOp.rename "7" "renamed" 8, SessionOp.delete "9"]).sessions,
      s.id = "7" :=
  sessionOps_current_pointer_valid
    [SessionOp.create 9, SessionOp.create 7,
     SessionOp.rename "7" "renamed" 8, SessionOp.delete "9"] "7" (by decide)

/-- Claim C5 counterexample: renameSession itself performs no whitespace
check — renaming with the all-blank title "   " replaces the title with
"   " and bumps updatedAt, so at the repository level it is not a no-op. -/
theorem renameSession_whitespace_not_noop :
    (renameSession ⟨[⟨"1", "Old", [], 0, 0⟩], none, false⟩ "1" "   " 5).sessions ≠
      [⟨"1", "Old", [], 0, 0⟩] ∧
    (renameSession ⟨[⟨"1", "Old", [], 0, 0⟩], none, false⟩ "1" "   " 5).sessions =
      [⟨"1", "   ", [], 0, 5⟩] := by
  constructor
  · decide
  · decide

/-- Claim C5 (amended): the silent whitespace no-op lives one layer up, in
the Sidebar's handleFinishEdit: a title that trims to empty never reaches
renameSession (the state is returned unchanged), while a title that is
non-empty after trimming is forwarded trimmed to renameSession, which
replaces the title and bumps updatedAt; renameSession itself replaces
unconditionally. -/
theorem renameSession_trim_guard_in_sidebar (st : ChatState)
    (sid title : String) (now : Nat) :
    (jsTrim title = "" → handleFinishEdit st sid title now = st) ∧
    (jsTrim title ≠ "" →
      handleFinishEdit st sid title now =
        renameSession st sid (jsTrim title) now) ∧
    (∀ s ∈ st.sessions, s.id = sid →
      { s with title := jsTrim title, updatedAt := now } ∈
        (renameSession st sid (jsTrim title) now).sessions) := by
  refine ⟨?_, ?_, ?_⟩
  · intro h
    unfold handleFinishEdit
    rw [if_neg]
    simp [h]
  · intro h
    unfold handleFinishEdit
    rw [if_pos h]
  · intro s hmem hid
    unfold renameSession
    simp only
    refine List.mem_map.mpr ⟨s, hmem, ?_⟩
    simp [hid]

theorem renameSession_trim_guard_witness :
    handleFinishEdit ⟨[⟨"1", "Old", [], 0, 0⟩], none, false⟩ "1" "   " 5 =
      ⟨[⟨"1", "Old", [], 0, 0⟩], none, false⟩ ∧
    handleFinishEdit ⟨[⟨"1", "Old", [], 0, 0⟩], none, false⟩ "1" " New " 5 =
      renameSession ⟨[⟨"1", "Old", [], 0, 0⟩], none, false⟩ "1" "New" 5 :=
  ⟨(renameSession_trim_guard_in_sidebar _ "1" "   " 5).1 (by decide),
   by
    have h := (renameSession_trim_guard_in_sidebar
      ⟨[⟨"1", "Old", [], 0, 0⟩], none, false⟩ "1" " New " 5).2.1 (by decide)
    rw [h]
    decide⟩

/-- Claim C6 counterexample: the persistence effect is guarded by
`sessions.length > 0`, so a mutation that empties the collection (deleting
the last session) writes nothing — the store keeps the previous one-session
blob instead of the serialization of the now-empty collection. -/
theorem persist_skips_emptied_collection :
    (mutateAndPersist ⟨[⟨"1", "New Chat", [], 0, 0⟩], some "1", false⟩
        (SessionOp.delete "1")
        (some (serializeSessions [⟨"1", "New Chat", [], 0, 0⟩]))).2 ≠
      some (serializeSessions
        (mutateAndPersist ⟨[⟨"1", "New Chat", [], 0, 0⟩], some "1", false⟩
            (SessionOp.delete "1")
            (some (serializeSessions [⟨"1", "New Chat", [], 0, 0⟩]))).1.sessions) ∧
    (mutateAndPersist ⟨[⟨"1", "New Chat", [], 0, 0⟩], some "1", false⟩
        (SessionOp.delete "1")
        (some (serializeSessions [⟨"1", "New Chat", [], 0, 0⟩]))).1.sessions = [] := by
  constructor
  · decide
  · decide

/-- Claim C6 (amended): after every mutation that leaves the collection
non-empty, the full collection is re-serialized to the store in one piece;
a mutation that leaves the collection empty performs no write and the
previously stored blob survives unchanged. -/
theorem persistEffect_full_reserialize (sessions : List ChatSession)
    (store : Option (List StoredSession)) :
    (sessions ≠ [] → persistEffect sessions store =
      some (serializeSessions sessions)) ∧
    (sessions = [] → persistEffect sessions store = store) := by
  constructor
  · intro h
    unfold persistEffect
    rw [if_pos (List.length_pos.mpr h)]
  · intro h
    subst h
    rfl

theorem persistEffect_full_reserialize_witness :
    persistEffect [⟨"1", "New Chat", [], 0, 0⟩] none =
      some (serializeSessions [⟨"1", "New Chat", [], 0, 0⟩]) ∧
    persistEffect ([] : List ChatSession)
        (some (serializeSessions [⟨"1", "New Chat", [], 0, 0⟩])) =
      some (serializeSessions [⟨"1", "New Chat", [], 0, 0⟩]) :=
  ⟨(persistEffect_full_reserialize [⟨"1", "New Chat", [], 0, 0⟩] none).1
      (by decide),
   (persistEffect_full_reserialize []
      (some (serializeSessions [⟨"1", "New Chat", [], 0, 0⟩]))).2 rfl⟩

theorem loadMessage_serializeMessage (m : Message)
    (h : m.timestamp < year10000ms) :
    loadMessage (serializeMessage m) = some m := by
  unfold loadMessage serializeMessage
  rw [decodeISO_encodeISO m.timestamp h]
  rfl

theorem loadAll_map {α β : Type} (f : α → β) (g : β → Option α)
    (l : List α) (h : ∀ x ∈ l, g (f x) = some x) :
    loadAll g (l.map f) = some l := by
  induction l with
  | nil => rfl
  | cons a l ih =>
    simp only [List.map_cons, loadAll]
    rw [h a (List.mem_cons_self a l),
      ih (fun x hx => h x (List.mem_cons_of_mem a hx))]

theorem loadSession_serializeSession (s : ChatSession)
    (h : s.createdAt < year10000ms ∧ s.updatedAt < year10000ms ∧
      ∀ m ∈ s.messages, m.timestamp < year10000ms) :
    loadSession (serializeSession s) = some s := by
  obtain ⟨h1, h2, h3⟩ := h
  have hm : loadAll loadMessage (s.messages.map serializeMessage) =
      some s.messages :=
    loadAll_map serializeMessage loadMessage s.messages
      (fun m hm => loadMessage_serializeMessage m (h3 m hm))
  unfold loadSession serializeSession
  rw [decodeISO_encodeISO s.createdAt h1, decodeISO_encodeISO s.updatedAt h2, hm]
  rfl

/-- Claim C7: serializing a session collection to the persisted format
(timestamps as ISO-8601 strings) and reloading it yields the identical
collection — content-equal sessions with timestamps recovered exactly (at
full millisecond precision, so in particular with no loss at the second
level) — for every collection whose timestamps fall in the 4-digit-year
range that the ISO rendering covers. -/
theorem sessions_roundtrip (sessions : List ChatSession)
    (h : ∀ s ∈ sessions, s.createdAt < year10000ms ∧
      s.updatedAt < year10000ms ∧
      ∀ m ∈ s.messages, m.timestamp < year10000ms) :
    loadSessions (serializeSessions sessions) = some sessions := by
  unfold loadSessions serializeSessions
  exact loadAll_map serializeSession loadSession sessions
    (fun s hs => loadSession_serializeSession s (h s hs))

theorem sessions_roundtrip_witness :
    loadSessions (serializeSessions
      [⟨"1", "INSAT questions",
        [⟨"m1", "What is INSAT-3D?", Sender.user, 1705276800000, none, none,
          none⟩,
         ⟨"m2", "INSAT-3D is a satellite.", Sender.bot, 1705276801500,
          some mockSources, some mockEntities, some q092⟩],
        1705276800000, 1705276801500⟩]) =
      some [⟨"1", "INSAT questions",
        [⟨"m1", "What is INSAT-3D?", Sender.user, 1705276800000, none, none,
          none⟩,
         ⟨"m2", "INSAT-3D is a satellite.", Sender.bot, 1705276801500,
          some mockSources, some mockEntities, some q092⟩],
        1705276800000, 1705276801500⟩] :=
  sessions_roundtrip _ (by decide)

/-- Claim C9: export is a pure read: the hook state (the session
collection, every session's messages, and the current-session pointer)
passes through exportData unchanged for every options value and every
format branch; only the returned download value is produced. -/
theorem exportData_pure_read (st : ChatState) (opts : ExportOptions)
    (now : Nat) :
    (exportData st opts now).1 = st ∧
    (exportData st opts now).1.sessions = st.sessions ∧
    (exportData st opts now).1.currentSessionId = st.currentSessionId ∧
    (exportData st opts now).1.isLoading = st.isLoading := by
  have h : (exportData st opts now).1 = st := by
    unfold exportData
    split_ifs <;> rfl
  exact ⟨h, by rw [h], by rw [h], by rw [h]⟩

/-- Claim C10 counterexample: a pdf-format export does NOT yield exactly
the same output as a json-format export of the same state: the serialized
`options` object embedded in the JSON content still records the passed
format, so the bytes differ (here on an otherwise identical empty
selection). -/
theorem pdf_export_not_byte_identical_to_json :
    (exportData ⟨[], none, false⟩
        ⟨"pdf", true, true, true, true, "all", []⟩ 0).2.content ≠
      (exportData ⟨[], none, false⟩
        ⟨"json", true, true, true, true, "all", []⟩ 0).2.content := by
  decide

/-- Claim C10 (amended): pdf — like every format other than json, csv and
html — falls through to the default branch, which applies the identical
rendering pipeline as json: the pretty-printed JSON dump of
exportedAt/options/sessions (with the options serialized as passed, so the
recorded format still reads "pdf"), a filename with extension .json, and
mime type application/json; filename and mime type coincide with the
json-format export, while the content differs exactly in the serialized
options.format field. -/
theorem pdf_falls_through_to_default (st : ChatState) (opts : ExportOptions)
    (now : Nat) (h1 : opts.format ≠ "json") (h2 : opts.format ≠ "csv")
    (h3 : opts.format ≠ "html") :
    (exportData st opts now).2 =
      ⟨"mosdac-export-" ++ isoDatePart now ++ ".json", "application/json",
        jsonExportContent (encodeISO now) opts
          (stripForExport opts (st.sessions.filter
            (fun s => opts.selectedSessions.contains s.id)))⟩ ∧
    (exportData st opts now).2.filename =
      (exportData st { opts with format := "json" } now).2.filename ∧
    (exportData st opts now).2.mimeType =
      (exportData st { opts with format := "json" } now).2.mimeType := by
  have hd : (exportData st opts now).2 =
      ⟨"mosdac-export-" ++ isoDatePart now ++ ".json", "application/json",
        jsonExportContent (encodeISO now) opts
          (stripForExport opts (st.sessions.filter
            (fun s => opts.selectedSessions.contains s.id)))⟩ := by
    unfold exportData
    rw [if_neg h1, if_neg h2, if_neg h3]
  refine ⟨hd, ?_, ?_⟩
  · rw [hd]
    unfold exportData
    rw [if_pos rfl]
  · rw [hd]
    unfold exportData
    rw [if_pos rfl]

theorem pdf_falls_through_witness :
    (exportData ⟨[], none, false⟩
        ⟨"pdf", true, true, true, true, "all", []⟩ 0).2.filename =
      "mosdac-export-1970-01-01.json" ∧
    (exportData ⟨[], none, false⟩
        ⟨"pdf", true, true, true, true, "all", []⟩ 0).2.mimeType =
      "application/json" := by
  have h := pdf_falls_through_to_default ⟨[], none, false⟩
    ⟨"pdf", true, true, true, true, "all", []⟩ 0
    (by decide) (by decide) (by decide)
  rw [h.1]
  exact ⟨by decide, rfl⟩

/-! ### Character-level helpers for the CSV line-count claims -/

theorem strAppend_data (a b : String) : (a ++ b).data = a.data ++ b.data := by
  cases a
  cases b
  rfl

theorem digitChar_bounded_ne_newline : ∀ d < 10, Nat.digitChar d ≠ '\n' := by
  decide

theorem natStrAux_chars (fuel : Nat) :
    ∀ (n : Nat), ∀ c ∈ natStrAux fuel n, c ≠ '\n' := by
  induction fuel with
  | zero => intro n c hc; simp [natStrAux] at hc
  | succ fuel ih =>
    intro n c hc
    by_cases hlt : n < 10
    · unfold natStrAux at hc
      rw [if_pos hlt, List.mem_singleton] at hc
      subst hc
      exact digitChar_bounded_ne_newline n hlt
    · unfold natStrAux at hc
      rw [if_neg hlt] at hc
      rcases List.mem_append.mp hc with h | h
      · exact ih (n / 10) c h
      · rw [List.mem_singleton] at h
        subst h
        exact digitChar_bounded_ne_newline (n % 10) (by omega)

theorem natStr_no_newline (n : Nat) : '\n' ∉ (natStr n).data := by
  intro hc
  exact natStrAux_chars (n + 1) n '\n' hc rfl

theorem intStr_no_newline (i : Int) : '\n' ∉ (intStr i).data := by
  unfold intStr
  split
  · rw [strAppend_data]
    intro hc
    rcases List.mem_append.mp hc with h | h
    · simp at h
    · exact natStr_no_newline _ h
  · exact natStr_no_newline _

theorem jsNum_no_newline (q : ℚ) : '\n' ∉ (jsNum q).data := by
  unfold jsNum
  split
  · split
    · exact intStr_no_newline _
    · simp only [strAppend_data]
      intro hc
      rcases List.mem_append.mp hc with hc | hc
      · rcases List.mem_append.mp hc with hc | hc
        · rcases List.mem_append.mp hc with hc | hc
          · split at hc
            · simp at hc
            · simp at hc
          · exact natStr_no_newline _ hc
        · simp at hc
      · rcases List.mem_append.mp hc with hc | hc
        · rcases List.mem_replicate.mp hc with ⟨-, hc⟩
          cases hc
        · exact natStrAux_chars _ _ '\n' hc rfl
  · simp only [strAppend_data]
    intro hc
    rcases List.mem_append.mp hc with hc | hc
    · rcases List.mem_append.mp hc with hc | hc
      · exact intStr_no_newline _ hc
      · simp at hc
    · exact natStr_no_newline _ hc

theorem encodeISO_no_newline (t : Nat) (h : t < year10000ms) :
    '\n' ∉ (encodeISO t).data := by
  have hy := encode_year_le t h
  have hdoe : (t / msPerDay + epochDays) % 146097 < 146097 :=
    Nat.mod_lt _ (by decide)
  have hmo := isoMonth_facts _ hdoe
  have hd := isoDay_facts _ hdoe
  have hr : t % msPerDay < 86400000 := Nat.mod_lt _ (by decide)
  unfold encodeISO
  intro hc
  simp only [pad4, pad2, pad3, List.cons_append, List.nil_append,
    List.mem_cons, List.not_mem_nil, or_false] at hc
  rcases hc with hc | hc | hc | hc | hc | hc | hc | hc | hc | hc | hc | hc |
    hc | hc | hc | hc | hc | hc | hc | hc | hc | hc | hc | hc
  all_goals first
    | (exact absurd hc (by decide))
    | (exact digitChar_bounded_ne_newline _ (by omega) hc.symm)

theorem confStr_no_newline (c : Option ℚ) : '\n' ∉ (confStr c).data := by
  unfold confStr
  split
  · split
    · simp
    · exact jsNum_no_newline _
  · simp

theorem senderStr_no_newline (s : Sender) : '\n' ∉ (senderStr s).data := by
  cases s <;> decide

theorem joinSep_no_mem (sep : String) (c : Char) (hsep : c ∉ sep.data) :
    ∀ (l : List String), (∀ x ∈ l, c ∉ x.data) → c ∉ (joinSep sep l).data := by
  intro l
  induction l with
  | nil => intro _; simp [joinSep]
  | cons x xs ih =>
    intro h
    cases xs with
    | nil => simpa [joinSep] using h x (List.mem_cons_self x [])
    | cons y ys =>
      intro hc
      simp only [joinSep, strAppend_data] at hc
      rcases List.mem_append.mp hc with hc | hc
      · rcases List.mem_append.mp hc with hc | hc
        · exact h x (List.mem_cons_self x (y :: ys)) hc
        · exact hsep hc
      · exact ih (fun r hr => h r (List.mem_cons_of_mem x hr)) hc

theorem csvEscape_no_newline (tx : String) (h : '\n' ∉ tx.data) :
    '\n' ∉ (csvEscape tx).data := by
  unfold csvEscape
  intro hc
  rcases List.mem_flatMap.mp hc with ⟨a, ha, hmem⟩
  by_cases hq : a = '"'
  · rw [if_pos hq] at hmem
    simp at hmem
  · rw [if_neg hq, List.mem_singleton] at hmem
    subst hmem
    exact h ha

theorem csvRow_no_newline (s : ChatSession) (m : Message)
    (hid : '\n' ∉ s.id.data) (htitle : '\n' ∉ s.title.data)
    (hmid : '\n' ∉ m.id.data) (htext : '\n' ∉ m.text.data)
    (hts : m.timestamp < year10000ms) :
    '\n' ∉ (csvRow s m).data := by
  unfold csvRow
  apply joinSep_no_mem "," '\n' (by decide)
  intro x hx
  simp only [List.mem_cons, List.not_mem_nil, or_false] at hx
  rcases hx with rfl | rfl | rfl | rfl | rfl | rfl | rfl
  · exact hid
  · simp only [strAppend_data]
    intro hc
    rcases List.mem_append.mp hc with hc | hc
    · rcases List.mem_append.mp hc with hc | hc
      · simp at hc
      · exact htitle hc
    · simp at hc
  · exact hmid
  · exact senderStr_no_newline m.sender
  · simp only [strAppend_data]
    intro hc
    rcases List.mem_append.mp hc with hc | hc
    · rcases List.mem_append.mp hc with hc | hc
      · simp at hc
      · exact csvEscape_no_newline m.text htext hc
    · simp at hc
  · exact encodeISO_no_newline m.timestamp hts
  · exact confStr_no_newline m.confidence

theorem count_nl_joinSep :
    ∀ (rows : List String), (∀ r ∈ rows, '\n' ∉ r.data) →
      (joinSep "\n" rows).data.count '\n' = rows.length - 1 := by
  intro rows
  induction rows with
  | nil => intro _; simp [joinSep]
  | cons x xs ih =>
    intro h
    cases xs with
    | nil =>
      have hx : x.data.count '\n' = 0 :=
        List.count_eq_zero.mpr (h x (List.mem_cons_self x []))
      simpa [joinSep] using hx
    | cons y ys =>
      have hx : x.data.count '\n' = 0 :=
        List.count_eq_zero.mpr (h x (List.mem_cons_self x (y :: ys)))
      have hrest := ih (fun r hr => h r (List.mem_cons_of_mem x hr))
      simp only [joinSep] at hrest ⊢
      rw [strAppend_data, strAppend_data, List.count_append, List.count_append,
        hx, hrest]
      have hone : List.count '\n' (['\n'] : List Char) = 1 := by decide
      simp only [List.length_cons]
      omega

theorem cnt_cons_eq (k c : Char) (cs : List Char) :
    List.count k (c :: cs) = List.count k cs + if c = k then 1 else 0 := by
  rw [List.count_cons]
  simp [beq_iff_eq]

theorem escape_counts (l : List Char) :
    (l.flatMap (fun c => if c = '"' then ['"', '"'] else [c])).count ',' =
        l.count ',' ∧
      (l.flatMap (fun c => if c = '"' then ['"', '"'] else [c])).count '"' =
        2 * l.count '"' := by
  induction l with
  | nil => simp
  | cons c cs ih =>
    obtain ⟨ih1, ih2⟩ := ih
    by_cases h : c = '"'
    · subst h
      have e1 : List.count ',' ['"', '"'] = 0 := by decide
      have e2 : List.count '"' ['"', '"'] = 2 := by decide
      constructor
      · rw [List.flatMap_cons, if_pos rfl, List.count_append, e1, ih1,
          cnt_cons_eq, if_neg (by decide)]
        omega
      · rw [List.flatMap_cons, if_pos rfl, List.count_append, e2, ih2,
          cnt_cons_eq, if_pos rfl]
        ring
    · have e1 : List.count ',' [c] = if c = ',' then 1 else 0 := by
        rw [cnt_cons_eq, List.count_nil]
        omega
      have e2 : List.count '"' [c] = if c = '"' then 1 else 0 := by
        rw [cnt_cons_eq, List.count_nil]
        omega
      constructor
      · rw [List.flatMap_cons, if_neg h, List.count_append, e1, ih1,
          cnt_cons_eq]
        omega
      · rw [List.flatMap_cons, if_neg h, List.count_append, e2, ih2,
          cnt_cons_eq, if_neg h]
        ring

theorem exportData_csv_content (st : ChatState) (opts : ExportOptions)
    (now : Nat) (hfmt : opts.format = "csv") :
    (exportData st opts now).2.content =
      csvContent (st.sessions.filter
        (fun s => opts.selectedSessions.contains s.id)) := by
  unfold exportData
  rw [hfmt]
  rfl

/-- Claim C8, counterexample: the source does not escape newlines inside the
Text field, so a message text containing a newline breaks the one-line-per-row
shape: with two selected sessions holding three messages in total, one of whose
texts embeds a newline, the CSV export has 5 lines, not the 4 the claim
promises. -/
theorem csv_newline_breaks_line_count :
    ((exportData
        ⟨[⟨"1", "A", [⟨"m1", "a" ++ "\n" ++ "b", Sender.user, 0, none, none, none⟩,
                      ⟨"m2", "hello", Sender.bot, 0, none, none, none⟩], 0, 0⟩,
          ⟨"2", "B", [⟨"m3", "hi", Sender.user, 0, none, none, none⟩], 0, 0⟩],
         none, false⟩
        ⟨"csv", true, true, true, true, "all", ["1", "2"]⟩ 0).2.content.data.count '\n')
        + 1 = 5 ∧
      ¬ (((exportData
        ⟨[⟨"1", "A", [⟨"m1", "a" ++ "\n" ++ "b", Sender.user, 0, none, none, none⟩,
                      ⟨"m2", "hello", Sender.bot, 0, none, none, none⟩], 0, 0⟩,
          ⟨"2", "B", [⟨"m3", "hi", Sender.user, 0, none, none, none⟩], 0, 0⟩],
         none, false⟩
        ⟨"csv", true, true, true, true, "all", ["1", "2"]⟩ 0).2.content.data.count '\n')
        + 1 = 4) := by
  constructor
  · decide
  · decide

/-- Claim C8 (amended): with format csv the export content is the fixed header
row followed by one csvRow per message of each selected session in
session-then-message order; csvEscape preserves embedded commas and doubles
embedded quotes; and when the selected sessions are two sessions holding three
messages in total whose visible fields are newline-free (message texts may
embed newlines, which the source does not escape — see the counterexample) and
whose timestamps render, the output has exactly 4 lines. -/
theorem csv_export_structure (st : ChatState) (opts : ExportOptions)
    (now : Nat) (s1 s2 : ChatSession)
    (hfmt : opts.format = "csv")
    (hsel : st.sessions.filter
      (fun s => opts.selectedSessions.contains s.id) = [s1, s2])
    (h1 : rowSafe s1) (h2 : rowSafe s2)
    (ht1 : ∀ m ∈ s1.messages, m.timestamp < year10000ms)
    (ht2 : ∀ m ∈ s2.messages, m.timestamp < year10000ms)
    (hmsg : s1.messages.length + s2.messages.length = 3) :
    (exportData st opts now).2.content =
      joinSep "\n"
        ("Session ID,Title,Message ID,Sender,Text,Timestamp,Confidence" ::
          (s1.messages.map (csvRow s1) ++ s2.messages.map (csvRow s2))) ∧
    (∀ tx : String, (csvEscape tx).data.count ',' = tx.data.count ',' ∧
      (csvEscape tx).data.count '"' = 2 * tx.data.count '"') ∧
    (exportData st opts now).2.content.data.count '\n' + 1 = 4 := by
  have hrows : csvRows [s1, s2] =
      "Session ID,Title,Message ID,Sender,Text,Timestamp,Confidence" ::
        (s1.messages.map (csvRow s1) ++ s2.messages.map (csvRow s2)) := by
    unfold csvRows
    rw [List.flatMap_cons, List.flatMap_cons, List.flatMap_nil, List.append_nil]
  have hcontent : (exportData st opts now).2.content =
      joinSep "\n"
        ("Session ID,Title,Message ID,Sender,Text,Timestamp,Confidence" ::
          (s1.messages.map (csvRow s1) ++ s2.messages.map (csvRow s2))) := by
    rw [exportData_csv_content st opts now hfmt, hsel]
    unfold csvContent
    rw [hrows]
  refine ⟨hcontent, fun tx => escape_counts tx.data, ?_⟩
  rw [hcontent]
  have hsafe : ∀ r ∈ ("Session ID,Title,Message ID,Sender,Text,Timestamp,Confidence" ::
      (s1.messages.map (csvRow s1) ++ s2.messages.map (csvRow s2))),
      '\n' ∉ r.data := by
    intro r hr
    rcases List.mem_cons.mp hr with hr | hr
    · subst hr
      decide
    · rcases List.mem_append.mp hr with hr | hr
      · rcases List.mem_map.mp hr with ⟨m, hm, rfl⟩
        exact csvRow_no_newline s1 m h1.1 h1.2.1 (h1.2.2 m hm).1
          (h1.2.2 m hm).2 (ht1 m hm)
      · rcases List.mem_map.mp hr with ⟨m, hm, rfl⟩
        exact csvRow_no_newline s2 m h2.1 h2.2.1 (h2.2.2 m hm).1
          (h2.2.2 m hm).2 (ht2 m hm)
  rw [count_nl_joinSep _ hsafe]
  simp only [List.length_cons, List.length_append, List.length_map]
  omega

/-- Witness for csv_export_structure: a concrete state with two selected
sessions and three newline-free messages exports exactly 4 CSV lines. -/
theorem csv_export_structure_witness :
    (exportData
        ⟨[⟨"1", "A", [⟨"m1", "hello, world", Sender.user, 0, none, none, none⟩,
                      ⟨"m2", "a \"q\" b", Sender.bot, 0, none, none, none⟩], 0, 0⟩,
          ⟨"2", "B", [⟨"m3", "hi", Sender.user, 0, none, none, none⟩], 0, 0⟩],
         none, false⟩
        ⟨"csv", true, true, true, true, "all", ["1", "2"]⟩ 0).2.content.data.count '\n'
      + 1 = 4 :=
  (csv_export_structure
    ⟨[⟨"1", "A", [⟨"m1", "hello, world", Sender.user, 0, none, none, none⟩,
                  ⟨"m2", "a \"q\" b", Sender.bot, 0, none, none, none⟩], 0, 0⟩,
      ⟨"2", "B", [⟨"m3", "hi", Sender.user, 0, none, none, none⟩], 0, 0⟩],
     none, false⟩
    ⟨"csv", true, true, true, true, "all", ["1", "2"]⟩ 0
    ⟨"1", "A", [⟨"m1", "hello, world", Sender.user, 0, none, none, none⟩,
                ⟨"m2", "a \"q\" b", Sender.bot, 0, none, none, none⟩], 0, 0⟩
    ⟨"2", "B", [⟨"m3", "hi", Sender.user, 0, none, none, none⟩], 0, 0⟩
    rfl (by decide) (by decide) (by decide) (by decide) (by decide)
    (by decide)).2.2

theorem appendUserMessage_cons_hit (t : ChatSession) (rest : List ChatSession)
    (sid : String) (u : Message) (tUser : Nat) (text : String)
    (ht : t.id = sid) :
    appendUserMessage (t :: rest) sid u tUser text =
      { t with
        messages := t.messages ++ [u],
        updatedAt := tUser,
        title := if t.messages.length = 0 then jsTake 50 text else t.title } ::
        appendUserMessage rest sid u tUser text := by
  unfold appendUserMessage
  rw [List.map_cons, if_pos ht]

theorem appendUserMessage_cons_skip (t : ChatSession) (rest : List ChatSession)
    (sid : String) (u : Message) (tUser : Nat) (text : String)
    (ht : t.id ≠ sid) :
    appendUserMessage (t :: rest) sid u tUser text =
      t :: appendUserMessage rest sid u tUser text := by
  unfold appendUserMessage
  rw [List.map_cons, if_neg ht]

theorem appendUserMessage_noop (l : List ChatSession) (sid : String)
    (u : Message) (tUser : Nat) (text : String)
    (h : ∀ s ∈ l, s.id ≠ sid) :
    appendUserMessage l sid u tUser text = l := by
  induction l with
  | nil => rfl
  | cons x xs ih =>
    rw [appendUserMessage_cons_skip x xs sid u tUser text
        (h x (List.mem_cons_self x xs)),
      ih (fun s hs => h s (List.mem_cons_of_mem x hs))]

theorem appendBotMessage_cons_hit (t : ChatSession) (rest : List ChatSession)
    (sid : String) (b : Message) (tBot : Nat) (ht : t.id = sid) :
    appendBotMessage (t :: rest) sid b tBot =
      { t with messages := t.messages ++ [b], updatedAt := tBot } ::
        appendBotMessage rest sid b tBot := by
  unfold appendBotMessage
  rw [List.map_cons, if_pos ht]

theorem appendBotMessage_cons_skip (t : ChatSession) (rest : List ChatSession)
    (sid : String) (b : Message) (tBot : Nat) (ht : t.id ≠ sid) :
    appendBotMessage (t :: rest) sid b tBot =
      t :: appendBotMessage rest sid b tBot := by
  unfold appendBotMessage
  rw [List.map_cons, if_neg ht]

theorem appendBotMessage_noop (l : List ChatSession) (sid : String)
    (b : Message) (tBot : Nat) (h : ∀ s ∈ l, s.id ≠ sid) :
    appendBotMessage l sid b tBot = l := by
  induction l with
  | nil => rfl
  | cons x xs ih =>
    rw [appendBotMessage_cons_skip x xs sid b tBot
        (h x (List.mem_cons_self x xs)),
      ih (fun s hs => h s (List.mem_cons_of_mem x hs))]

theorem append_user_bot_split (sid : String) (u b : Message)
    (tUser tBot : Nat) (text : String) (t : ChatSession)
    (ht : t.id = sid) :
    ∀ (pre post : List ChatSession), (∀ s ∈ pre, s.id ≠ sid) →
      (∀ s ∈ post, s.id ≠ sid) →
      appendBotMessage
          (appendUserMessage (pre ++ t :: post) sid u tUser text) sid b tBot =
        pre ++
          { t with
            messages := t.messages ++ [u, b],
            updatedAt := tBot,
            title := if t.messages.length = 0 then jsTake 50 text
                     else t.title } :: post := by
  intro pre
  induction pre with
  | nil =>
    intro post _ hpost
    rw [List.nil_append, List.nil_append,
      appendUserMessage_cons_hit t post sid u tUser text ht,
      appendUserMessage_noop post sid u tUser text hpost,
      appendBotMessage_cons_hit
        { t with
          messages := t.messages ++ [u],
          updatedAt := tUser,
          title := if t.messages.length = 0 then jsTake 50 text else t.title }
        post sid b tBot ht,
      appendBotMessage_noop post sid b tBot hpost]
    simp [List.append_assoc]
  | cons x xs ih =>
    intro post hpre hpost
    rw [List.cons_append,
      appendUserMessage_cons_skip x _ sid u tUser text
        (hpre x (List.mem_cons_self x xs)),
      appendBotMessage_cons_skip x _ sid b tBot
        (hpre x (List.mem_cons_self x xs)),
      ih post (fun s hs => hpre s (List.mem_cons_of_mem x hs)) hpost,
      List.cons_append]

theorem split_at_id (sid : String) (l : List ChatSession)
    (hmem : sid ∈ l.map ChatSession.id)
    (hnodup : (l.map ChatSession.id).Nodup) :
    ∃ pre t post, l = pre ++ t :: post ∧ t.id = sid ∧
      (∀ s ∈ pre, s.id ≠ sid) ∧ (∀ s ∈ post, s.id ≠ sid) := by
  induction l with
  | nil => simp at hmem
  | cons x xs ih =>
    rw [List.map_cons, List.nodup_cons] at hnodup
    rw [List.map_cons, List.mem_cons] at hmem
    rcases hmem with hmem | hmem
    · refine ⟨[], x, xs, rfl, hmem.symm, by simp, ?_⟩
      intro s hs hsid
      have hin : s.id ∈ xs.map ChatSession.id :=
        List.mem_map_of_mem ChatSession.id hs
      rw [hsid, hmem] at hin
      exact hnodup.1 hin
    · obtain ⟨pre, t, post, hsplit, hid, hpre, hpost⟩ := ih hmem hnodup.2
      refine ⟨x :: pre, t, post, by rw [hsplit, List.cons_append], hid, ?_, hpost⟩
      intro s hs
      rcases List.mem_cons.mp hs with hs | hs
      · subst hs
        intro hbad
        rw [← hbad] at hmem
        exact hnodup.1 hmem
      · exact hpre s hs

theorem sendMessage_some_eq (st : ChatState) (text : String)
    (tNew tUser tBot : Nat) (outcome : SendOutcome) (s : String)
    (h : st.currentSessionId = some s) :
    sendMessage st text tNew tUser tBot outcome =
      { sessions := appendBotMessage
          (appendUserMessage st.sessions s (userMessage text tUser) tUser text)
          s (botMessage outcome text tBot) tBot,
        currentSessionId := some s,
        isLoading := false } := by
  unfold sendMessage
  simp only [h]

theorem sendMessage_none_eq (st : ChatState) (text : String)
    (tNew tUser tBot : Nat) (outcome : SendOutcome)
    (h : st.currentSessionId = none) :
    sendMessage st text tNew tUser tBot outcome =
      { sessions := appendBotMessage
          (appendUserMessage ((createNewSession st tNew).1 :: st.sessions)
            (toString tNew) (userMessage text tUser) tUser text)
          (toString tNew) (botMessage outcome text tBot) tBot,
        currentSessionId := some (toString tNew),
        isLoading := false } := by
  unfold sendMessage
  simp only [h, createNewSession]

/-- Claim C1: every send(text) call appends exactly one user message and then
exactly one assistant message (a real answer or the fixed apology) to the
session whose id was captured at the start of the call, a new session being
created first when no session is current; every other session is untouched. -/
theorem sendMessage_one_user_one_bot (st : ChatState) (text : String)
    (tNew tUser tBot : Nat) (outcome : SendOutcome)
    (hnodup : (st.sessions.map ChatSession.id).Nodup)
    (hfresh : st.currentSessionId = none →
      toString tNew ∉ st.sessions.map ChatSession.id)
    (hvalid : ∀ s, st.currentSessionId = some s →
      s ∈ st.sessions.map ChatSession.id) :
    ∃ sid target pre post,
      ((st.currentSessionId = some sid ∧ st.sessions = pre ++ target :: post) ∨
        (st.currentSessionId = none ∧ sid = toString tNew ∧
          target = (createNewSession st tNew).1 ∧ pre = [] ∧
          post = st.sessions)) ∧
      target.id = sid ∧
      (sendMessage st text tNew tUser tBot outcome).sessions =
        pre ++
          { target with
            messages := target.messages ++
              [userMessage text tUser, botMessage outcome text tBot],
            updatedAt := tBot,
            title := if target.messages.length = 0 then jsTake 50 text
                     else target.title } :: post ∧
      (userMessage text tUser).sender = Sender.user ∧
      (botMessage outcome text tBot).sender = Sender.bot ∧
      (outcome = SendOutcome.secondOrder →
        (botMessage outcome text tBot).text = apologyText) := by
  cases hcur : st.currentSessionId with
  | some s =>
    obtain ⟨pre, t, post, hsplit, hid, hpre, hpost⟩ :=
      split_at_id s st.sessions (hvalid s hcur) hnodup
    refine ⟨s, t, pre, post, Or.inl ⟨rfl, hsplit⟩, hid, ?_, rfl, ?_, ?_⟩
    · rw [sendMessage_some_eq st text tNew tUser tBot outcome s hcur]
      show appendBotMessage
          (appendUserMessage st.sessions s (userMessage text tUser) tUser text)
          s (botMessage outcome text tBot) tBot = _
      rw [hsplit]
      exact append_user_bot_split s (userMessage text tUser)
        (botMessage outcome text tBot) tUser tBot text t hid pre post hpre hpost
    · cases outcome <;> rfl
    · intro ho
      subst ho
      rfl
  | none =>
    have hf := hfresh hcur
    have hpost : ∀ s ∈ st.sessions, s.id ≠ toString tNew := by
      intro s hs hbad
      have hin : s.id ∈ st.sessions.map ChatSession.id :=
        List.mem_map_of_mem ChatSession.id hs
      rw [hbad] at hin
      exact hf hin
    refine ⟨toString tNew, (createNewSession st tNew).1, [], st.sessions,
      Or.inr ⟨rfl, rfl, rfl, rfl, rfl⟩, rfl, ?_, rfl, ?_, ?_⟩
    · rw [sendMessage_none_eq st text tNew tUser tBot outcome hcur]
      show appendBotMessage
          (appendUserMessage ((createNewSession st tNew).1 :: st.sessions)
            (toString tNew) (userMessage text tUser) tUser text)
          (toString tNew) (botMessage outcome text tBot) tBot = _
      have := append_user_bot_split (toString tNew) (userMessage text tUser)
        (botMessage outcome text tBot) tUser tBot text
        (createNewSession st tNew).1 rfl [] st.sessions (by simp) hpost
      rw [List.nil_append] at this
      rw [this, List.nil_append]
    · cases outcome <;> rfl
    · intro ho
      subst ho
      rfl

/-- Witness for sendMessage_one_user_one_bot: sending from the empty initial
state (no current session) with a fallback settlement. -/
theorem sendMessage_one_user_one_bot_witness :
    ∃ sid target pre post,
      (((initialChatState.currentSessionId = some sid ∧
          initialChatState.sessions = pre ++ target :: post) ∨
        (initialChatState.currentSessionId = none ∧ sid = toString 5 ∧
          target = (createNewSession initialChatState 5).1 ∧ pre = [] ∧
          post = initialChatState.sessions))) ∧
      target.id = sid ∧
      (sendMessage initialChatState "hi" 5 6 7 SendOutcome.fallback).sessions =
        pre ++
          { target with
            messages := target.messages ++
              [userMessage "hi" 6, botMessage SendOutcome.fallback "hi" 7],
            updatedAt := 7,
            title := if target.messages.length = 0 then jsTake 50 "hi"
                     else target.title } :: post ∧
      (userMessage "hi" 6).sender = Sender.user ∧
      (botMessage SendOutcome.fallback "hi" 7).sender = Sender.bot ∧
      (SendOutcome.fallback = SendOutcome.secondOrder →
        (botMessage SendOutcome.fallback "hi" 7).text = apologyText) :=
  sendMessage_one_user_one_bot initialChatState "hi" 5 6 7
    SendOutcome.fallback (by simp [initialChatState])
    (fun _ => by simp [initialChatState])
    (fun s h => by simp [initialChatState] at h)

end Chat
